import Mathlib

/-!
Shallow embedding of `src/transformers/urlPathTransformer.ts`
(`UrlPathTransformer`), the bidirectional path/URL resolver of the
vscode-chrome-debug-core repository.

The transformer's own code is embedded directly.  Its collaborators
(`utils.isURL`, `utils.canonicalizeUrl`,
`ChromeUtils.targetUrlToClientPathByPathMappings`,
`ChromeUtils.targetUrlToClientPath`, `ChromeDebugAdapter.EVAL_NAME_PREFIX`)
live outside the given source tree, so the transformer is parameterised
over a `Helpers` record of those functions; concrete instances modelled
from the spec are provided for evaluating the development on concrete
inputs.

JavaScript `Map<string, string>` is embedded as an association list with
first-match lookup and update-in-place-or-append insertion, which agrees
with `Map.get` / `Map.set` (keys stay unique starting from the empty map).
JavaScript truthiness of a `string | undefined` value (`undefined` and
`""` are falsy) is embedded by `isFalsy` on `Option String`.
`logger.log` calls are embedded as emitted `LogEvent` values.
-/

namespace UrlPathTransformer

/-- Embeds JavaScript truthiness of a `string | undefined` value:
`undefined` and the empty string are falsy. -/
def isFalsy : Option String → Bool
  | none => true
  | some s => s == ""

/-- Embeds `Map.get`: value of the first entry with the given key. -/
def mapGet (m : List (String × String)) (k : String) : Option String :=
  match m with
  | [] => none
  | (k', v) :: rest => if k' = k then some v else mapGet rest k

/-- Embeds `Map.set`: update the entry with the given key in place, or
append a fresh entry when the key is absent. -/
def mapSet (m : List (String × String)) (k v : String) : List (String × String) :=
  match m with
  | [] => [(k, v)]
  | (k', v') :: rest => if k' = k then (k, v) :: rest else (k', v') :: mapSet rest k v

/-- `isPre p s` decides whether the character list `p` starts the list `s`
(the semantics of JavaScript `String.prototype.startsWith`). -/
def isPre : List Char → List Char → Bool
  | [], _ => true
  | _ :: _, [] => false
  | a :: as, b :: bs => a = b && isPre as bs

/-- `strStarts p s` embeds `s.startsWith(p)` on strings. -/
def strStarts (p s : String) : Bool :=
  isPre p.data s.data

/-- `hasSub p s` decides whether `p` occurs as a contiguous sublist of `s`. -/
def hasSub (p : List Char) : List Char → Bool
  | [] => isPre p []
  | c :: rest => isPre p (c :: rest) || hasSub p rest

/-- The external collaborators of `UrlPathTransformer`, not part of the
given source tree, abstracted as a record of pure functions:
`utils.isURL`, Node's `path.isAbsolute`, `utils.canonicalizeUrl`,
`ChromeUtils.targetUrlToClientPathByPathMappings`,
`ChromeUtils.targetUrlToClientPath` and the constant
`ChromeDebugAdapter.EVAL_NAME_PREFIX`. -/
structure Helpers where
  isURL : String → Bool
  isAbsolute : String → Bool
  canonicalizeUrl : String → String
  targetUrlToClientPathByPathMappings : String → List (String × String) → Option String
  targetUrlToClientPath : Option String → String → Option String
  evalName : String

/-- The mutable instance state of `UrlPathTransformer`:
`_webRoot` (possibly `undefined`), `_pathMapping` (an ordered map, embedded
as an association list) and the two cache maps. -/
structure State where
  webRoot : Option String
  pathMapping : List (String × String)
  clientPathToTargetUrl : List (String × String)
  targetUrlToClientPath : List (String × String)
deriving DecidableEq

/-- The state at construction: `_pathMapping = {}`, both cache maps empty,
`_webRoot` not yet assigned. -/
def initialState : State :=
  { webRoot := none, pathMapping := [], clientPathToTargetUrl := [], targetUrlToClientPath := [] }

/-- The `launch` / `attach` arguments used by the transformer:
`args.webRoot` and the optional `args.pathMapping`. -/
structure LaunchArgs where
  webRoot : Option String
  pathMapping : Option (List (String × String))

/-- Embeds `UrlPathTransformer.launch`: `this._webRoot = args.webRoot;
this._pathMapping = args.pathMapping || {}` (the delegation to the base
class performs no state change relevant here). -/
def launch (s : State) (args : LaunchArgs) : State :=
  { s with webRoot := args.webRoot, pathMapping := args.pathMapping.getD [] }

/-- Embeds `UrlPathTransformer.attach`, whose body performs the same
assignments as `launch`. -/
def attach (s : State) (args : LaunchArgs) : State :=
  { s with webRoot := args.webRoot, pathMapping := args.pathMapping.getD [] }

/-- Embeds `UrlPathTransformer.clearTargetContext`: both cache maps are
replaced by fresh empty maps. -/
def clearTargetContext (s : State) : State :=
  { s with clientPathToTargetUrl := [], targetUrlToClientPath := [] }

/-- One `logger.log` call of the transformer, identified by call site and
carrying the interpolated values. -/
inductive LogEvent where
  | setBPAlreadyURL (path : String)
  | setBPResolved (path url : String)
  | setBPNoTargetCached (path : String)
  | scriptParsedResolved (url clientPath : String)
  | scriptParsedNotResolved (url : String)
deriving DecidableEq

/-- Embeds `UrlPathTransformer.getClientPathFromTargetPath`: a direct
lookup of `_targetUrlToClientPath`, no canonicalization, no fallback. -/
def getClientPathFromTargetPath (s : State) (targetPath : String) : Option String :=
  mapGet s.targetUrlToClientPath targetPath

/-- Embeds `UrlPathTransformer.getTargetPathFromClientPath`: when the
input is an absolute path, look up `_clientPathToTargetUrl` at the
canonicalized input; otherwise return the input itself. -/
def getTargetPathFromClientPath (H : Helpers) (s : State) (clientPath : String) : Option String :=
  if H.isAbsolute clientPath then
    mapGet s.clientPathToTargetUrl (H.canonicalizeUrl clientPath)
  else
    some clientPath

/-- The resolution performed at the top of `UrlPathTransformer.scriptParsed`:
`ChromeUtils.targetUrlToClientPathByPathMappings` first, and when its result
is falsy, `ChromeUtils.targetUrlToClientPath` against `_webRoot`. -/
def scriptParsedResolution (H : Helpers) (s : State) (scriptUrl : String) : Option String :=
  let cp := H.targetUrlToClientPathByPathMappings scriptUrl s.pathMapping
  if isFalsy cp then H.targetUrlToClientPath s.webRoot scriptUrl else cp

/-- Embeds `UrlPathTransformer.scriptParsed`: resolve `scriptUrl` with the
path-mapping resolver, then the webRoot resolver; when the result is falsy,
return `scriptUrl` unchanged, logging unless the URL starts with
`EVAL_NAME_PREFIX`; when truthy, insert the pair into both cache maps, log,
and return the client path. -/
def scriptParsed (H : Helpers) (s : State) (scriptUrl : String) :
    State × String × List LogEvent :=
  let clientPath := scriptParsedResolution H s scriptUrl
  if isFalsy clientPath then
    (s, scriptUrl,
      if strStarts H.evalName scriptUrl then []
      else [LogEvent.scriptParsedNotResolved scriptUrl])
  else
    let c := clientPath.getD ""
    ({ s with
        clientPathToTargetUrl := mapSet s.clientPathToTargetUrl c scriptUrl,
        targetUrlToClientPath := mapSet s.targetUrlToClientPath scriptUrl c },
      c, [LogEvent.scriptParsedResolved scriptUrl c])

/-- The `source` of a breakpoint request or stack frame:
`path`, `sourceReference` and `origin`, each possibly `undefined`. -/
structure Source where
  path : Option String
  sourceReference : Option Nat
  origin : Option String
deriving DecidableEq

/-- Embeds `UrlPathTransformer.setBreakpoints`, which mutates
`args.source` in place: no-op on a falsy path; pass-through with a log on
a URL; otherwise canonicalize, consult `getTargetPathFromClientPath`, and
set the path to the result when truthy, to the canonicalized path when not.
The (unchanged) state is returned to record the absence of state writes. -/
def setBreakpoints (H : Helpers) (s : State) (source : Source) :
    State × Source × List LogEvent :=
  if isFalsy source.path then
    (s, source, [])
  else
    let p0 := source.path.getD ""
    if H.isURL p0 then
      (s, source, [LogEvent.setBPAlreadyURL p0])
    else
      let p := H.canonicalizeUrl p0
      let url := getTargetPathFromClientPath H s p
      if isFalsy url then
        (s, { source with path := some p }, [LogEvent.setBPNoTargetCached p])
      else
        (s, { source with path := some (url.getD "") },
          [LogEvent.setBPResolved p (url.getD "")])

/-- A stack frame of the stack-trace response, carrying an optional source. -/
structure StackFrame where
  source : Option Source
deriving DecidableEq

/-- The resolution expression inside `stackTraceResponse`'s frame handler:
`this.getClientPathFromTargetPath(frame.source.path) ||
ChromeUtils.targetUrlToClientPath(this._webRoot, frame.source.path)`. -/
def stackTraceResolution (H : Helpers) (s : State) (p : String) : Option String :=
  let fromCache := getClientPathFromTargetPath s p
  if isFalsy fromCache then H.targetUrlToClientPath s.webRoot p else fromCache

/-- The per-frame body of `UrlPathTransformer.stackTraceResponse`'s `forEach`:
when the frame has a source with a truthy path, resolve it through the cache
with the webRoot resolver as fallback, and on a truthy result overwrite the
path and clear `sourceReference` and `origin`; otherwise leave the frame
unchanged. -/
def stackTraceFrame (H : Helpers) (s : State) (frame : StackFrame) : StackFrame :=
  match frame.source with
  | none => frame
  | some src =>
    if isFalsy src.path then frame
    else
      let p := src.path.getD ""
      let clientPath := stackTraceResolution H s p
      if isFalsy clientPath then frame
      else
        { frame with
            source := some { src with
              path := some (clientPath.getD ""), sourceReference := none, origin := none } }

/-- Embeds `UrlPathTransformer.stackTraceResponse`: apply `stackTraceFrame`
to every frame of the response.  The (unchanged) state is returned to
record the absence of state writes. -/
def stackTraceResponse (H : Helpers) (s : State) (frames : List StackFrame) :
    State × List StackFrame :=
  (s, frames.map (stackTraceFrame H s))

/-- Modelled from the spec: `utils.isURL` (§4.1, "determine whether it is
already a URL (by scheme prefix)") — the string contains `://`. -/
def specIsURL (s : String) : Bool :=
  hasSub "://".data s.data

/-- Modelled from the spec: Node's `path.isAbsolute` on POSIX paths — the
string starts with a separator. -/
def specIsAbsolute (s : String) : Bool :=
  match s.data with
  | '/' :: _ => true
  | _ => false

/-- Modelled from the spec: `utils.canonicalizeUrl` (§4.1,
separator-normalizing best-effort canonicalization, idempotent) —
backslashes become forward slashes. -/
def specCanonicalizeUrl (s : String) : String :=
  String.mk (s.data.map fun ch => if ch = '\\' then '/' else ch)

/-- Modelled from the spec: `ChromeUtils.targetUrlToClientPathByPathMappings`
(§4.2) — the first entry whose URL-prefix matches the start of the target
URL resolves it, replacing the matched prefix by the entry's local
directory; no entry matching yields none. -/
def specResolveByPathMappings (url : String) (mapping : List (String × String)) : Option String :=
  match mapping with
  | [] => none
  | (pre, dir) :: rest =>
    if isPre pre.data url.data then some (String.mk (dir.data ++ url.data.drop pre.data.length))
    else specResolveByPathMappings url rest

/-- `dropToSub p s` drops through the first occurrence of `p` in `s`,
returning the remainder, or none when `p` does not occur. -/
def dropToSub (p : List Char) : List Char → Option (List Char)
  | [] => if isPre p [] then some [] else none
  | c :: rest =>
    if isPre p (c :: rest) then some ((c :: rest).drop p.length)
    else dropToSub p rest

/-- `dropHost s` drops the host part (everything up to and including the
first `/`), or none when `s` holds no `/`. -/
def dropHost : List Char → Option (List Char)
  | [] => none
  | '/' :: rest => some rest
  | _ :: rest => dropHost rest

/-- Modelled from the spec: `ChromeUtils.targetUrlToClientPath` (§4.3) —
strip the URL's origin to obtain a relative segment and join it to the
webRoot; none when the webRoot is unset or the URL shape does not permit a
relative segment to be extracted. -/
def specResolveByWebRoot (webRoot : Option String) (url : String) : Option String :=
  match webRoot with
  | none => none
  | some root =>
    match dropToSub "://".data url.data with
    | none => none
    | some rest =>
      match dropHost rest with
      | none => none
      | some segs => some (root ++ "/" ++ String.mk segs)

/-- Modelled from the spec: the concrete collaborator instance — the
resolvers of §4.2/§4.3, the canonicalizer/classifier of §4.1 and the
synthetic dynamically-evaluated-code URL scheme `eval://` (§3, §8). -/
def specHelpers : Helpers :=
  { isURL := specIsURL
    isAbsolute := specIsAbsolute
    canonicalizeUrl := specCanonicalizeUrl
    targetUrlToClientPathByPathMappings := specResolveByPathMappings
    targetUrlToClientPath := specResolveByWebRoot
    evalName := "eval://" }

/-- A configuration with one path-mapping entry, used to evaluate the
development on concrete inputs. -/
def demoState : State :=
  { initialState with pathMapping := [("http://a/", "/proj/")] }

/-- The state reached from `demoState` by resolving `http://a/main.js`. -/
def demoCached : State :=
  (scriptParsed specHelpers demoState "http://a/main.js").1

/-- The state reached by resolving two different target URLs to the same
client path `/proj/main.js`, one after the other. -/
def staleDemoState : State :=
  (scriptParsed specHelpers
    ((scriptParsed specHelpers
        { initialState with pathMapping := [("http://a/", "/proj/"), ("http://b/", "/proj/")] }
        "http://a/main.js").1)
    "http://b/main.js").1

/-- The state reached by a successful resolution of the empty target URL
(an empty path-mapping prefix matches every URL, the empty one included). -/
def emptyUrlState : State :=
  (scriptParsed specHelpers { initialState with pathMapping := [("", "/proj/")] } "").1

example :
    (scriptParsed specHelpers { initialState with webRoot := some "/home/user/proj" }
      "http://localhost/main.js").2.1 = "/home/user/proj/main.js" := by decide

example :
    (scriptParsed specHelpers
      { initialState with pathMapping := [("http://localhost/app/", "/home/user/proj/")] }
      "http://localhost/app/main.js").2.1 = "/home/user/proj/main.js" := by decide

example :
    scriptParsed specHelpers initialState "eval://123" = (initialState, "eval://123", []) := by
  decide

theorem mapGet_mapSet_self (m : List (String × String)) (k v : String) :
    mapGet (mapSet m k v) k = some v := by
  induction m with
  | nil => simp [mapGet, mapSet]
  | cons hd tl ih =>
    obtain ⟨k', v'⟩ := hd
    by_cases h : k' = k <;> simp [mapGet, mapSet, h, ih]

theorem isFalsy_eq_false (o : Option String) :
    isFalsy o = false ↔ ∃ c, o = some c ∧ c ≠ "" := by
  cases o with
  | none => simp [isFalsy]
  | some s => simp [isFalsy]

/-- When resolution succeeds (truthy result `c`), `scriptParsed` returns `c`
together with the state carrying both cache insertions and one resolution
log event. -/
theorem scriptParsed_of_resolved (H : Helpers) (s : State) (u c : String)
    (hres : scriptParsedResolution H s u = some c) (hc : c ≠ "") :
    scriptParsed H s u =
      ({ s with
          clientPathToTargetUrl := mapSet s.clientPathToTargetUrl c u,
          targetUrlToClientPath := mapSet s.targetUrlToClientPath u c },
        c, [LogEvent.scriptParsedResolved u c]) := by
  simp [scriptParsed, hres, isFalsy, hc]

/-- When resolution fails (falsy result), `scriptParsed` leaves the state
untouched and returns the input URL. -/
theorem scriptParsed_of_unresolved (H : Helpers) (s : State) (u : String)
    (hres : isFalsy (scriptParsedResolution H s u) = true) :
    scriptParsed H s u =
      (s, u,
        if strStarts H.evalName u then []
        else [LogEvent.scriptParsedNotResolved u]) := by
  simp [scriptParsed, hres]

/-- C1: Round trip — whenever `scriptParsed u` returns a client path `c`
with `c ≠ u` (one of the two resolvers succeeded; `c` being a client path
is, per the data model, absolute and canonical), then on the resulting
state `getClientPathFromTargetPath u = some c` and
`getTargetPathFromClientPath c = some u`. -/
theorem scriptParsed_roundTrip (H : Helpers) (s : State) (u c : String)
    (habs : H.isAbsolute c = true) (hcanon : H.canonicalizeUrl c = c)
    (hres : (scriptParsed H s u).2.1 = c) (hne : c ≠ u) :
    getClientPathFromTargetPath (scriptParsed H s u).1 u = some c ∧
    getTargetPathFromClientPath H (scriptParsed H s u).1 c = some u := by
  cases hf : isFalsy (scriptParsedResolution H s u) with
  | true =>
    rw [scriptParsed_of_unresolved H s u hf] at hres
    exact absurd hres.symm hne
  | false =>
    obtain ⟨c0, hc0, hc0ne⟩ := (isFalsy_eq_false _).mp hf
    rw [scriptParsed_of_resolved H s u c0 hc0 hc0ne] at hres
    simp only at hres
    subst hres
    rw [scriptParsed_of_resolved H s u c0 hc0 hc0ne]
    constructor
    · simp [getClientPathFromTargetPath, mapGet_mapSet_self]
    · simp [getTargetPathFromClientPath, habs, hcanon, mapGet_mapSet_self]

/-- Witness for C1: the path-mapping configuration of `demoState` resolves
`http://a/main.js` to `/proj/main.js`, and both lookups round-trip. -/
theorem scriptParsed_roundTrip_witness :
    getClientPathFromTargetPath (scriptParsed specHelpers demoState "http://a/main.js").1
        "http://a/main.js" = some "/proj/main.js" ∧
    getTargetPathFromClientPath specHelpers (scriptParsed specHelpers demoState "http://a/main.js").1
        "/proj/main.js" = some "http://a/main.js" :=
  scriptParsed_roundTrip specHelpers demoState "http://a/main.js" "/proj/main.js"
    (by decide) (by decide) (by decide) (by decide)

/-- C2 (amended): after any prior state, a successful resolution inserts
the pair into both maps with last-write-wins at its own two keys, so the
most recently inserted pair round-trips in both directions at the map
level. -/
theorem scriptParsed_cache_lastWriteWins (H : Helpers) (s : State) (u c : String)
    (hres : scriptParsedResolution H s u = some c) (hc : c ≠ "") :
    mapGet (scriptParsed H s u).1.targetUrlToClientPath u = some c ∧
    mapGet (scriptParsed H s u).1.clientPathToTargetUrl c = some u := by
  rw [scriptParsed_of_resolved H s u c hres hc]
  simp [mapGet_mapSet_self]

/-- Witness for C2 (amended): inserting over the already-populated
`demoCached` state still round-trips the freshly inserted pair. -/
theorem scriptParsed_cache_lastWriteWins_witness :
    mapGet (scriptParsed specHelpers demoCached "http://a/other.js").1.targetUrlToClientPath
        "http://a/other.js" = some "/proj/other.js" ∧
    mapGet (scriptParsed specHelpers demoCached "http://a/other.js").1.clientPathToTargetUrl
        "/proj/other.js" = some "http://a/other.js" :=
  scriptParsed_cache_lastWriteWins specHelpers demoCached "http://a/other.js" "/proj/other.js"
    (by decide) (by decide)

/-- C2 counterexample: after caching `http://a/main.js ↦ /proj/main.js`
and then re-resolving `/proj/main.js` from `http://b/main.js`, the stale
entry for `http://a/main.js` survives in the target→client map although
the client→target map now answers `http://b/main.js`: the claimed
bidirectional invariant fails in a reachable state. -/
theorem cache_bidirectional_counterexample :
    getClientPathFromTargetPath staleDemoState "http://a/main.js" = some "/proj/main.js" ∧
    getTargetPathFromClientPath specHelpers staleDemoState "/proj/main.js" =
      some "http://b/main.js" ∧
    ("http://b/main.js" : String) ≠ "http://a/main.js" := by decide

/-- C3: Resolution precedence — when the path-mapping resolver returns a
truthy client path `c`, `scriptParsed` returns exactly `c` and caches it,
and its whole outcome is independent of the webRoot resolver. -/
theorem scriptParsed_pathMapping_precedence (H : Helpers) (s : State) (u c : String)
    (hpm : H.targetUrlToClientPathByPathMappings u s.pathMapping = some c) (hc : c ≠ "") :
    (scriptParsed H s u).2.1 = c ∧
    getClientPathFromTargetPath (scriptParsed H s u).1 u = some c ∧
    ∀ wr, scriptParsed { H with targetUrlToClientPath := wr } s u = scriptParsed H s u := by
  have hres : scriptParsedResolution H s u = some c := by
    simp [scriptParsedResolution, hpm, isFalsy, hc]
  have hres' : ∀ wr, scriptParsedResolution { H with targetUrlToClientPath := wr } s u = some c := by
    intro wr
    simp [scriptParsedResolution, hpm, isFalsy, hc]
  refine ⟨?_, ?_, ?_⟩
  · rw [scriptParsed_of_resolved H s u c hres hc]
  · rw [scriptParsed_of_resolved H s u c hres hc]
    simp [getClientPathFromTargetPath, mapGet_mapSet_self]
  · intro wr
    rw [scriptParsed_of_resolved H s u c hres hc,
      scriptParsed_of_resolved _ s u c (hres' wr) hc]

/-- Witness for C3: with both a matching path-mapping entry and a webRoot
that would resolve the same URL elsewhere, the path-mapping result wins. -/
theorem scriptParsed_pathMapping_precedence_witness :
    (scriptParsed specHelpers
        { initialState with
            pathMapping := [("http://a/", "/proj/")], webRoot := some "/other" }
        "http://a/main.js").2.1 = "/proj/main.js" ∧
    getClientPathFromTargetPath
        (scriptParsed specHelpers
          { initialState with
              pathMapping := [("http://a/", "/proj/")], webRoot := some "/other" }
          "http://a/main.js").1 "http://a/main.js" = some "/proj/main.js" ∧
    ∀ wr, scriptParsed { specHelpers with targetUrlToClientPath := wr }
        { initialState with
            pathMapping := [("http://a/", "/proj/")], webRoot := some "/other" }
        "http://a/main.js" =
      scriptParsed specHelpers
        { initialState with
            pathMapping := [("http://a/", "/proj/")], webRoot := some "/other" }
        "http://a/main.js" :=
  scriptParsed_pathMapping_precedence specHelpers
    { initialState with pathMapping := [("http://a/", "/proj/")], webRoot := some "/other" }
    "http://a/main.js" "/proj/main.js" (by decide) (by decide)

/-- C5: unresolved case — when both resolvers return a falsy result,
`scriptParsed` returns the input URL with the state unchanged; no log
event is emitted when the URL starts with the eval prefix, and exactly
the informational miss event is emitted otherwise. -/
theorem scriptParsed_unresolved_cases (H : Helpers) (s : State) (u : String)
    (h1 : isFalsy (H.targetUrlToClientPathByPathMappings u s.pathMapping) = true)
    (h2 : isFalsy (H.targetUrlToClientPath s.webRoot u) = true) :
    (scriptParsed H s u).2.1 = u ∧ (scriptParsed H s u).1 = s ∧
    (strStarts H.evalName u = true → (scriptParsed H s u).2.2 = []) ∧
    (strStarts H.evalName u = false →
      (scriptParsed H s u).2.2 = [LogEvent.scriptParsedNotResolved u]) := by
  have hres : isFalsy (scriptParsedResolution H s u) = true := by
    simp only [scriptParsedResolution, h1, if_true]
    exact h2
  rw [scriptParsed_of_unresolved H s u hres]
  refine ⟨rfl, rfl, ?_, ?_⟩ <;> intro h <;> simp [h]

/-- Witness for C5: `eval://123` resolves with neither resolver, is
returned unchanged, and produces no log event. -/
theorem scriptParsed_unresolved_cases_witness :
    (scriptParsed specHelpers initialState "eval://123").2.1 = "eval://123" ∧
    (scriptParsed specHelpers initialState "eval://123").1 = initialState ∧
    (strStarts specHelpers.evalName "eval://123" = true →
      (scriptParsed specHelpers initialState "eval://123").2.2 = []) ∧
    (strStarts specHelpers.evalName "eval://123" = false →
      (scriptParsed specHelpers initialState "eval://123").2.2 =
        [LogEvent.scriptParsedNotResolved "eval://123"]) :=
  scriptParsed_unresolved_cases specHelpers initialState "eval://123" (by decide) (by decide)

/-- C7: Cache reset — after `clearTargetContext`, every target-URL lookup
and every absolute-client-path lookup returns none. -/
theorem clearTargetContext_resets (H : Helpers) (s : State) (u c : String)
    (habs : H.isAbsolute c = true) :
    getClientPathFromTargetPath (clearTargetContext s) u = none ∧
    getTargetPathFromClientPath H (clearTargetContext s) c = none := by
  constructor
  · simp [clearTargetContext, getClientPathFromTargetPath, mapGet]
  · simp [clearTargetContext, getTargetPathFromClientPath, habs, mapGet]

/-- Witness for C7: clearing the populated `demoCached` state empties both
lookups for the previously cached pair. -/
theorem clearTargetContext_resets_witness :
    getClientPathFromTargetPath (clearTargetContext demoCached) "http://a/main.js" = none ∧
    getTargetPathFromClientPath specHelpers (clearTargetContext demoCached) "/proj/main.js" =
      none :=
  clearTargetContext_resets specHelpers demoCached "http://a/main.js" "/proj/main.js" (by decide)

theorem setBreakpoints_fst (H : Helpers) (s : State) (source : Source) :
    (setBreakpoints H s source).1 = s := by
  unfold setBreakpoints
  split
  · rfl
  · dsimp only
    split
    · rfl
    · split <;> rfl

theorem setBreakpoints_of_falsy (H : Helpers) (s : State) (source : Source)
    (h : isFalsy source.path = true) :
    setBreakpoints H s source = (s, source, []) := by
  simp [setBreakpoints, h]

theorem isFalsy_some (p : String) (h : p ≠ "") : isFalsy (some p) = false := by
  simpa [isFalsy] using h

theorem setBreakpoints_of_url (H : Helpers) (s : State) (source : Source) (p : String)
    (hp : source.path = some p) (hne : p ≠ "") (hurl : H.isURL p = true) :
    setBreakpoints H s source = (s, source, [LogEvent.setBPAlreadyURL p]) := by
  simp [setBreakpoints, hp, isFalsy_some p hne, hurl]

theorem setBreakpoints_of_miss (H : Helpers) (s : State) (source : Source) (p : String)
    (hp : source.path = some p) (hne : p ≠ "") (hurl : H.isURL p = false)
    (hmiss : isFalsy (getTargetPathFromClientPath H s (H.canonicalizeUrl p)) = true) :
    setBreakpoints H s source =
      (s, { source with path := some (H.canonicalizeUrl p) },
        [LogEvent.setBPNoTargetCached (H.canonicalizeUrl p)]) := by
  simp [setBreakpoints, hp, isFalsy_some p hne, hurl, hmiss]

theorem setBreakpoints_of_hit (H : Helpers) (s : State) (source : Source) (p q : String)
    (hp : source.path = some p) (hne : p ≠ "") (hurl : H.isURL p = false)
    (hhit : getTargetPathFromClientPath H s (H.canonicalizeUrl p) = some q) (hq : q ≠ "") :
    setBreakpoints H s source =
      (s, { source with path := some q },
        [LogEvent.setBPResolved (H.canonicalizeUrl p) q]) := by
  simp [setBreakpoints, hp, isFalsy_some p hne, hurl, hhit, isFalsy_some q hq]

/-- C4: `setBreakpoints` is total (the embedding is a total function) and:
on a falsy path it is a no-op; on a URL the source is unchanged; otherwise
the path becomes the cached target URL when the lookup is truthy and the
canonicalized client path when it is not; in each case the resulting path
is a non-empty string when the input path was non-empty; the state is
never modified. -/
theorem setBreakpoints_postcondition (H : Helpers) (s : State) (source : Source)
    (hcanon : ∀ p : String, p ≠ "" → H.canonicalizeUrl p ≠ "") :
    (setBreakpoints H s source).1 = s ∧
    (isFalsy source.path = true → (setBreakpoints H s source).2.1 = source) ∧
    (∀ p, source.path = some p → H.isURL p = true → (setBreakpoints H s source).2.1 = source) ∧
    (∀ p, source.path = some p → p ≠ "" → H.isURL p = false →
      (isFalsy (getTargetPathFromClientPath H s (H.canonicalizeUrl p)) = true →
        (setBreakpoints H s source).2.1.path = some (H.canonicalizeUrl p)) ∧
      (∀ q, getTargetPathFromClientPath H s (H.canonicalizeUrl p) = some q → q ≠ "" →
        (setBreakpoints H s source).2.1.path = some q)) ∧
    (∀ p, source.path = some p → p ≠ "" →
      ∃ q, (setBreakpoints H s source).2.1.path = some q ∧ q ≠ "") := by
  refine ⟨setBreakpoints_fst H s source, ?_, ?_, ?_, ?_⟩
  · intro h
    rw [setBreakpoints_of_falsy H s source h]
  · intro p hp hurl
    by_cases hne : p = ""
    · subst hne
      rw [setBreakpoints_of_falsy H s source (by simp [hp, isFalsy])]
    · rw [setBreakpoints_of_url H s source p hp hne hurl]
  · intro p hp hne hurl
    constructor
    · intro hmiss
      rw [setBreakpoints_of_miss H s source p hp hne hurl hmiss]
    · intro q hhit hq
      rw [setBreakpoints_of_hit H s source p q hp hne hurl hhit hq]
  · intro p hp hne
    by_cases hurl : H.isURL p = true
    · rw [setBreakpoints_of_url H s source p hp hne hurl]
      exact ⟨p, hp, hne⟩
    · rw [Bool.not_eq_true] at hurl
      cases hm : getTargetPathFromClientPath H s (H.canonicalizeUrl p) with
      | none =>
        rw [setBreakpoints_of_miss H s source p hp hne hurl (by simp [hm, isFalsy])]
        exact ⟨H.canonicalizeUrl p, rfl, hcanon p hne⟩
      | some q =>
        by_cases hq : q = ""
        · subst hq
          rw [setBreakpoints_of_miss H s source p hp hne hurl (by simp [hm, isFalsy])]
          exact ⟨H.canonicalizeUrl p, rfl, hcanon p hne⟩
        · rw [setBreakpoints_of_hit H s source p q hp hne hurl hm hq]
          exact ⟨q, rfl, hq⟩

theorem specCanonicalizeUrl_ne_empty (p : String) (h : p ≠ "") : specCanonicalizeUrl p ≠ "" := by
  intro hc
  apply h
  obtain ⟨data⟩ := p
  cases data with
  | nil => rfl
  | cons a l =>
    rw [String.ext_iff] at hc
    simp [specCanonicalizeUrl] at hc

/-- Witness for C4 at the populated cache state `demoCached` and the
client path `/proj/main.js`, which resolves back to `http://a/main.js`. -/
theorem setBreakpoints_postcondition_witness :
    (setBreakpoints specHelpers demoCached ⟨some "/proj/main.js", some 3, none⟩).1 = demoCached ∧
    (isFalsy (Source.mk (some "/proj/main.js") (some 3) none).path = true →
      (setBreakpoints specHelpers demoCached ⟨some "/proj/main.js", some 3, none⟩).2.1 =
        ⟨some "/proj/main.js", some 3, none⟩) ∧
    (∀ p, (Source.mk (some "/proj/main.js") (some 3) none).path = some p →
      specHelpers.isURL p = true →
      (setBreakpoints specHelpers demoCached ⟨some "/proj/main.js", some 3, none⟩).2.1 =
        ⟨some "/proj/main.js", some 3, none⟩) ∧
    (∀ p, (Source.mk (some "/proj/main.js") (some 3) none).path = some p → p ≠ "" →
      specHelpers.isURL p = false →
      (isFalsy (getTargetPathFromClientPath specHelpers demoCached
          (specHelpers.canonicalizeUrl p)) = true →
        (setBreakpoints specHelpers demoCached ⟨some "/proj/main.js", some 3, none⟩).2.1.path =
          some (specHelpers.canonicalizeUrl p)) ∧
      (∀ q, getTargetPathFromClientPath specHelpers demoCached
          (specHelpers.canonicalizeUrl p) = some q → q ≠ "" →
        (setBreakpoints specHelpers demoCached ⟨some "/proj/main.js", some 3, none⟩).2.1.path =
          some q)) ∧
    (∀ p, (Source.mk (some "/proj/main.js") (some 3) none).path = some p → p ≠ "" →
      ∃ q, (setBreakpoints specHelpers demoCached
          ⟨some "/proj/main.js", some 3, none⟩).2.1.path = some q ∧ q ≠ "") :=
  setBreakpoints_postcondition specHelpers demoCached ⟨some "/proj/main.js", some 3, none⟩
    (fun p hp => specCanonicalizeUrl_ne_empty p hp)

/-- C6 (amended): `stackTraceResponse` maps the frame handler over all
frames and leaves the state unchanged; the handler leaves a frame without
a source, with a falsy path, or with an unresolvable path unchanged, and
rewrites the source of a frame whose non-empty path resolves (cache first,
webRoot resolver as fallback) to the client path with `sourceReference`
and `origin` cleared. -/
theorem stackTraceResponse_frames (H : Helpers) (s : State) (frames : List StackFrame) :
    (stackTraceResponse H s frames).2 = frames.map (stackTraceFrame H s) ∧
    ∀ frame : StackFrame,
      (frame.source = none → stackTraceFrame H s frame = frame) ∧
      (∀ src, frame.source = some src → isFalsy src.path = true →
        stackTraceFrame H s frame = frame) ∧
      (∀ src p, frame.source = some src → src.path = some p → p ≠ "" →
        (isFalsy (stackTraceResolution H s p) = true → stackTraceFrame H s frame = frame) ∧
        (∀ c, stackTraceResolution H s p = some c → c ≠ "" →
          stackTraceFrame H s frame =
            { frame with source := some { src with
                path := some c, sourceReference := none, origin := none } })) := by
  refine ⟨rfl, fun frame => ⟨?_, ?_, ?_⟩⟩
  · intro h
    simp [stackTraceFrame, h]
  · intro src hsrc hfalsy
    simp [stackTraceFrame, hsrc, hfalsy]
  · intro src p hsrc hp hne
    constructor
    · intro hmiss
      simp [stackTraceFrame, hsrc, hp, isFalsy_some p hne, hmiss]
    · intro c hc hcne
      simp [stackTraceFrame, hsrc, hp, isFalsy_some p hne, hc, isFalsy_some c hcne]

/-- Witness for C6 (amended): on the populated cache state `demoCached`,
a frame carrying the cached target URL is rewritten to the client path
with `sourceReference` and `origin` cleared. -/
theorem stackTraceResponse_frames_witness :
    stackTraceFrame specHelpers demoCached
        ⟨some ⟨some "http://a/main.js", some 7, some "script"⟩⟩ =
      ⟨some ⟨some "/proj/main.js", none, none⟩⟩ :=
  (((stackTraceResponse_frames specHelpers demoCached []).2
        ⟨some ⟨some "http://a/main.js", some 7, some "script"⟩⟩).2.2
      ⟨some "http://a/main.js", some 7, some "script"⟩ "http://a/main.js" rfl rfl
      (by decide)).2 "/proj/main.js" (by decide) (by decide)

/-- C6 counterexample: a frame whose source path is the empty string is
left entirely unchanged by `stackTraceResponse` — its `sourceReference`
survives — even though its path has a cache entry resolving to `/proj/`,
because the handler tests JavaScript truthiness of the path, not its
presence. -/
theorem stackTrace_emptyPath_counterexample :
    getClientPathFromTargetPath emptyUrlState "" = some "/proj/" ∧
    (stackTraceResponse specHelpers emptyUrlState
        [⟨some ⟨some "", some 7, some "script"⟩⟩]).2 =
      [⟨some ⟨some "", some 7, some "script"⟩⟩] := by decide

/-- C8 (amended): `getTargetPathFromClientPath` dispatches on whether the
input is an absolute path: an absolute input is canonicalized and looked
up in the client→target cache map; any other input (URL or relative path)
is returned unchanged without consulting the cache. -/
theorem getTargetPathFromClientPath_dispatch (H : Helpers) (s : State) (p : String) :
    (H.isAbsolute p = true →
      getTargetPathFromClientPath H s p = mapGet s.clientPathToTargetUrl (H.canonicalizeUrl p)) ∧
    (H.isAbsolute p = false → getTargetPathFromClientPath H s p = some p) := by
  constructor <;> intro h <;> simp [getTargetPathFromClientPath, h]

/-- Witness for C8 (amended): an absolute path is looked up in the cache. -/
theorem getTargetPathFromClientPath_dispatch_witness :
    getTargetPathFromClientPath specHelpers initialState "/a.js" =
      mapGet initialState.clientPathToTargetUrl (specHelpers.canonicalizeUrl "/a.js") :=
  (getTargetPathFromClientPath_dispatch specHelpers initialState "/a.js").1 (by decide)

/-- C8 counterexample: the relative filesystem path `foo.js` is not in URL
form and has no cache entry, yet `getTargetPathFromClientPath` returns it
unchanged instead of none: the dispatch is on absoluteness, not URL-ness,
so non-absolute filesystem paths are never looked up. -/
theorem getTargetPathFromClientPath_relative_counterexample :
    specIsURL "foo.js" = false ∧
    mapGet initialState.clientPathToTargetUrl (specCanonicalizeUrl "foo.js") = none ∧
    getTargetPathFromClientPath specHelpers initialState "foo.js" = some "foo.js" ∧
    (some "foo.js" : Option String) ≠ none := by decide

/-- C9: the cache maps are modified only by `scriptParsed` and
`clearTargetContext`: `setBreakpoints` and `stackTraceResponse` return
the state unchanged for every input — in particular a frame resolution
succeeding only through the webRoot fallback adds no cache entry — and
the two lookup operations are pure functions of the state. -/
theorem cache_modified_only_by_resolution (H : Helpers) (s : State) (source : Source)
    (frames : List StackFrame) :
    (setBreakpoints H s source).1 = s ∧ (stackTraceResponse H s frames).1 = s :=
  ⟨setBreakpoints_fst H s source, rfl⟩

/-- C10: `launch` and `attach` replace only `webRoot` and `pathMapping`
(the latter defaulting to empty when absent) and preserve both cache maps,
so previously cached pairs remain retrievable by both lookups. -/
theorem launch_attach_preserve_cache (s : State) (a : LaunchArgs) :
    (launch s a).webRoot = a.webRoot ∧
    (launch s a).pathMapping = a.pathMapping.getD [] ∧
    (launch s a).clientPathToTargetUrl = s.clientPathToTargetUrl ∧
    (launch s a).targetUrlToClientPath = s.targetUrlToClientPath ∧
    attach s a = launch s a ∧
    (∀ u, getClientPathFromTargetPath (launch s a) u = getClientPathFromTargetPath s u) ∧
    (∀ H c, getTargetPathFromClientPath H (launch s a) c =
      getTargetPathFromClientPath H s c) :=
  ⟨rfl, rfl, rfl, rfl, rfl, fun _ => rfl, fun _ _ => rfl⟩

end UrlPathTransformer
